import Mathlib

/-!
Shallow embedding of the pyo3 reference-ownership core:
`src/ppptr.rs` (the `pyptr` owned-reference wrapper and its constructors)
and `src/objects/exc.rs` (the specialized exception constructors).

The foreign runtime (the `ffi` crate, external to the repository) is
modelled as explicit state `Rt`: a refcount map over pointers, the
pending-error slot, the dynamic-type map, and a log of foreign calls.
A pointer is a `Nat`; `0` is the null pointer. Every operation that
touches foreign memory is a function taking and returning an `Rt`,
and every foreign primitive it invokes is appended to `Rt.log`, so
that statements such as "the pending-error slot is neither read nor
cleared" or "no reference-count operation is performed" are provable
from the log.
-/

namespace PyO3

/-- A raw foreign object pointer; `0` is the null pointer. -/
abbrev Ptr := Nat

/-- Contents of the foreign pending-error slot: the raised error's type
object and its associated value, per spec section 6 `fetch_error`. -/
structure PyErrV where
  etype : Nat
  evalue : Ptr
deriving DecidableEq

/-- One primitive call into the Foreign Runtime Interface (spec section 6):
incref, decref, dynamic type check, fetch-and-clear of the pending-error
slot, and set of the pending-error slot. -/
inductive FFICall where
  | increfC (p : Ptr)
  | decrefC (p : Ptr)
  | typeCheckC (p : Ptr) (t : Nat)
  | fetchErrC
  | setErrC (t : Nat) (v : Ptr)
deriving DecidableEq

/-- The foreign runtime's observable state: per-pointer reference counts
(signed, as `Py_ssize_t` is), the pending-error slot, the dynamic type
of every object, and the trace of foreign primitive calls made so far. -/
structure Rt where
  refcnt : Ptr → Int
  errSlot : Option PyErrV
  typeOf : Ptr → Nat
  log : List FFICall

/-- Foreign primitive `Py_INCREF p`. -/
def Rt.incref (rt : Rt) (p : Ptr) : Rt :=
  { rt with
    refcnt := fun q => if q = p then rt.refcnt q + 1 else rt.refcnt q,
    log := rt.log ++ [FFICall.increfC p] }

/-- Foreign primitive `Py_DECREF p`. -/
def Rt.decref (rt : Rt) (p : Ptr) : Rt :=
  { rt with
    refcnt := fun q => if q = p then rt.refcnt q - 1 else rt.refcnt q,
    log := rt.log ++ [FFICall.decrefC p] }

/-- Foreign primitive `PyObject_TypeCheck(p, t) != 0`: dynamic type
membership test, returning its Bool outcome and the state with the call
recorded. The source invokes it on whatever pointer it is given,
including null. -/
def Rt.typeCheck (rt : Rt) (p : Ptr) (t : Nat) : Bool × Rt :=
  (rt.typeOf p == t, { rt with log := rt.log ++ [FFICall.typeCheckC p t] })

/-- Foreign primitive `PyErr_SetObject(t, v)`: sets the pending-error slot. -/
def Rt.setErr (rt : Rt) (t : Nat) (v : Ptr) : Rt :=
  { rt with errSlot := some ⟨t, v⟩, log := rt.log ++ [FFICall.setErrC t v] }

/-- The downcast-failure value `PyDowncastError(py, None)` constructed in
`ppptr.rs`: carries only an optional diagnostic (always `None` here). -/
structure PyDowncastError where
  diag : Option Ptr
deriving DecidableEq

/-- A host-side foreign error value: either reconstructed from the
pending-error slot, or the generic runtime error produced when the slot
was unexpectedly empty (spec section 4.2), or a downcast failure lifted
into the unified error channel (the `e.into()` in
`cast_from_owned_ptr_or_err`). -/
inductive PyErr where
  | fromSlot (e : PyErrV)
  | slotEmptyRuntime
  | fromDowncast (d : PyDowncastError)
deriving DecidableEq

/-- The foreign error value that a fetch of a given slot content yields. -/
def PyErr.ofSlot : Option PyErrV → PyErr
  | some e => PyErr.fromSlot e
  | none => PyErr.slotEmptyRuntime

/-- Modelled from the spec: `PyErr::fetch` lives in `err.rs`, which is not
under `src/`; per spec sections 4.2 and 6, it reads the pending-error slot,
clearing it as a side effect, and an unexpectedly empty slot surfaces as a
generic runtime error rather than a fabricated one. -/
def PyErr.fetch (rt : Rt) : PyErr × Rt :=
  (PyErr.ofSlot rt.errSlot,
   { rt with errSlot := none, log := rt.log ++ [FFICall.fetchErrC] })

/-- Outcome of an operation that may abort unrecoverably: either a normal
result, or an abort that carries the error it consulted before aborting. -/
inductive POutcome (α : Type) where
  | ok (a : α)
  | panicked (e : PyErr)
deriving DecidableEq

/-- Modelled from the spec: `err::panic_after_error` lives in `err.rs`,
which is not under `src/`; per spec section 7, before aborting it still
consults the pending-error slot so the failure reason is not lost. The
abort itself is represented by the caller wrapping the fetched error in
`POutcome.panicked`. -/
def panic_after_error (rt : Rt) : PyErr × Rt :=
  PyErr.fetch rt

/-- The owned-reference wrapper `pyptr` (`ppptr.rs` line 11): holds the
wrapped foreign pointer. The interpreter-context token is zero-sized and
purely type-level, so it is not carried as data. -/
structure pyptr where
  ptr : Ptr
deriving DecidableEq

/-- `pyptr::from_owned_ptr` (`ppptr.rs` lines 29-32): wraps the pointer
as-is, transferring the caller's existing claim; no refcount operation. -/
def pyptr.from_owned_ptr (p : Ptr) (rt : Rt) : pyptr × Rt :=
  (⟨p⟩, rt)

/-- `pyptr::from_owned_ptr_or_panic` (`ppptr.rs` lines 36-43): null is
escalated to an unrecoverable abort via `panic_after_error`; otherwise
delegates to `from_owned_ptr`. -/
def pyptr.from_owned_ptr_or_panic (p : Ptr) (rt : Rt) : POutcome pyptr × Rt :=
  if p = 0 then
    (POutcome.panicked (panic_after_error rt).1, (panic_after_error rt).2)
  else
    (POutcome.ok (pyptr.from_owned_ptr p rt).1, (pyptr.from_owned_ptr p rt).2)

/-- `pyptr::from_owned_ptr_or_err` (`ppptr.rs` lines 49-57): null yields
`Err(PyErr::fetch(py))`; otherwise delegates to `from_owned_ptr`. -/
def pyptr.from_owned_ptr_or_err (p : Ptr) (rt : Rt) : Except PyErr pyptr × Rt :=
  if p = 0 then
    (Except.error (PyErr.fetch rt).1, (PyErr.fetch rt).2)
  else
    (Except.ok (pyptr.from_owned_ptr p rt).1, (pyptr.from_owned_ptr p rt).2)

/-- `pyptr::from_owned_ptr_or_opt` (`ppptr.rs` lines 63-70): null yields
`None` with no foreign call at all; otherwise delegates to
`from_owned_ptr`. -/
def pyptr.from_owned_ptr_or_opt (p : Ptr) (rt : Rt) : Option pyptr × Rt :=
  if p = 0 then
    (none, rt)
  else
    (some (pyptr.from_owned_ptr p rt).1, (pyptr.from_owned_ptr p rt).2)

/-- `pyptr::from_borrowed_ptr` (`ppptr.rs` lines 76-80): calls
`Py_INCREF` on the pointer to create a fresh claim, then wraps it. -/
def pyptr.from_borrowed_ptr (p : Ptr) (rt : Rt) : pyptr × Rt :=
  (⟨p⟩, rt.incref p)

/-- `pyptr::from_borrowed_ptr_or_opt` (`ppptr.rs` lines 85-94): null
yields `None` with no foreign call; otherwise increfs and wraps. -/
def pyptr.from_borrowed_ptr_or_opt (p : Ptr) (rt : Rt) : Option pyptr × Rt :=
  if p = 0 then
    (none, rt)
  else
    (some (⟨p⟩ : pyptr), rt.incref p)

/-- `pyptr::get_refcnt` (`ppptr.rs` lines 98-100): reads the current
foreign refcount of the wrapped object. -/
def pyptr.get_refcnt (x : pyptr) (rt : Rt) : Int :=
  rt.refcnt x.ptr

/-- `pyptr::cast_from_owned_ptr` (`ppptr.rs` lines 108-119): runs the
dynamic type check on the given pointer (with no null guard), then on
success wraps via `from_owned_ptr`, on failure returns
`PyDowncastError(py, None)`. -/
def pyptr.cast_from_owned_ptr (T : Nat) (p : Ptr) (rt : Rt) :
    Except PyDowncastError pyptr × Rt :=
  if (Rt.typeCheck rt p T).1 then
    (Except.ok (pyptr.from_owned_ptr p (Rt.typeCheck rt p T).2).1,
     (pyptr.from_owned_ptr p (Rt.typeCheck rt p T).2).2)
  else
    (Except.error ⟨none⟩, (Rt.typeCheck rt p T).2)

/-- `pyptr::cast_from_borrowed_ptr` (`ppptr.rs` lines 123-134): runs the
dynamic type check on the given pointer (with no null guard), then on
success wraps via `from_borrowed_ptr` (incref), on failure returns
`PyDowncastError(py, None)`. -/
def pyptr.cast_from_borrowed_ptr (T : Nat) (p : Ptr) (rt : Rt) :
    Except PyDowncastError pyptr × Rt :=
  if (Rt.typeCheck rt p T).1 then
    (Except.ok (pyptr.from_borrowed_ptr p (Rt.typeCheck rt p T).2).1,
     (pyptr.from_borrowed_ptr p (Rt.typeCheck rt p T).2).2)
  else
    (Except.error ⟨none⟩, (Rt.typeCheck rt p T).2)

/-- `pyptr::cast_from_owned_ptr_or_panic` (`ppptr.rs` lines 138-147):
runs the dynamic type check FIRST on the given pointer (there is no null
guard in the source); on success wraps via `from_owned_ptr`, on failure
escalates to an unrecoverable abort via `panic_after_error`. -/
def pyptr.cast_from_owned_ptr_or_panic (T : Nat) (p : Ptr) (rt : Rt) :
    POutcome pyptr × Rt :=
  if (Rt.typeCheck rt p T).1 then
    (POutcome.ok (pyptr.from_owned_ptr p (Rt.typeCheck rt p T).2).1,
     (pyptr.from_owned_ptr p (Rt.typeCheck rt p T).2).2)
  else
    (POutcome.panicked (panic_after_error (Rt.typeCheck rt p T).2).1,
     (panic_after_error (Rt.typeCheck rt p T).2).2)

/-- `pyptr::cast_from_owned_ptr_or_err` (`ppptr.rs` lines 150-159): null
yields `Err(PyErr::fetch(py))` before any type check; otherwise delegates
to `cast_from_owned_ptr`, lifting a downcast failure into `PyErr` via
`map_err(|e| e.into())`. -/
def pyptr.cast_from_owned_ptr_or_err (T : Nat) (p : Ptr) (rt : Rt) :
    Except PyErr pyptr × Rt :=
  if p = 0 then
    (Except.error (PyErr.fetch rt).1, (PyErr.fetch rt).2)
  else
    match (pyptr.cast_from_owned_ptr T p rt).1 with
    | Except.ok x => (Except.ok x, (pyptr.cast_from_owned_ptr T p rt).2)
    | Except.error d =>
        (Except.error (PyErr.fromDowncast d), (pyptr.cast_from_owned_ptr T p rt).2)

/-- `ToPythonPointer::as_ptr` for `pyptr` (`ppptr.rs` lines 165-167):
borrows the raw pointer, no ownership transfer, no foreign call. -/
def pyptr.as_ptr (x : pyptr) : Ptr :=
  x.ptr

/-- `IntoPythonPointer::into_ptr` for `pyptr` (`ppptr.rs` lines 174-178):
returns the wrapped pointer and `mem::forget`s the wrapper, so the drop
decrement never runs; no foreign call is made. -/
def pyptr.into_ptr (x : pyptr) (rt : Rt) : Ptr × Rt :=
  (x.ptr, rt)

/-- `Drop for pyptr` (`ppptr.rs` lines 184-190): unconditionally calls
`Py_DECREF` on the wrapped pointer (the unconditional debug print on the
drop path writes to stdout only and is not part of the foreign state). -/
def pyptr.drop (x : pyptr) (rt : Rt) : Rt :=
  rt.decref x.ptr

/-- The argument record handed to the foreign
`PyUnicodeDecodeError_Create` primitive (spec section 6
`decode_error_create`): encoding name, input bytes, input length, the
half-open byte range, and the reason string. `exc.rs` passes the range
bounds and length as `Py_ssize_t`; they are kept as `Nat` here since all
are casts of non-negative `usize` values. -/
structure DecodeErrArgs where
  encoding : String
  input : List Nat
  length : Nat
  start : Nat
  stop : Nat
  reason : String
deriving DecidableEq

/-- `UnicodeDecodeError::new` (`exc.rs` lines 88-101): assembles the
arguments of the foreign `PyUnicodeDecodeError_Create` call. The foreign
call itself and the subsequent `from_owned_ptr_or_err` wrapping of its
returned pointer follow the owned-or-error construction modelled above;
the deterministic content of the produced error is this argument record. -/
def UnicodeDecodeError.new (encoding : String) (input : List Nat)
    (range : Nat × Nat) (reason : String) : DecodeErrArgs :=
  { encoding := encoding, input := input, length := input.length,
    start := range.1, stop := range.2, reason := reason }

/-- A raw UTF-8 decode failure (`std::str::Utf8Error`): only the
valid-up-to offset is consumed by the convenience constructor. -/
structure Utf8Error where
  valid_up_to : Nat
deriving DecidableEq

/-- `UnicodeDecodeError::new_utf8` (`exc.rs` lines 103-108): the
convenience form, reporting the one-byte range
`valid_up_to .. valid_up_to + 1` with encoding `"utf-8"` and the fixed
reason `"invalid utf-8"`. -/
def UnicodeDecodeError.new_utf8 (input : List Nat) (err : Utf8Error) :
    DecodeErrArgs :=
  UnicodeDecodeError.new "utf-8" input (err.valid_up_to, err.valid_up_to + 1)
    "invalid utf-8"

/-- The foreign type object `ffi::PyExc_StopIteration`, as an opaque
distinguished type-object identifier. -/
def PyExc_StopIteration : Nat := 257

/-- A foreign tuple object handed to the iteration-stop signal. -/
structure PyTuple where
  ptr : Ptr
deriving DecidableEq

/-- Modelled from the spec: `PyTuple::park` lives in the native-object
module, which is not under `src/`; per spec section 4.3 the tuple of
accompanying values is attached to the raised condition as-is, without
allocating or taking a new reference, so `park().as_ptr()` yields the
tuple's own pointer. -/
def PyTuple.park (t : PyTuple) : Ptr :=
  t.ptr

/-- `StopIteration::stop_iteration` (`exc.rs` lines 114-119): calls
`PyErr_SetObject(PyExc_StopIteration, args.park().as_ptr())`. It returns
no value: its entire effect is on the foreign state. -/
def StopIteration.stop_iteration (args : PyTuple) (rt : Rt) : Rt :=
  rt.setErr PyExc_StopIteration args.park

/-- A concrete foreign runtime used to instantiate universally quantified
theorems: every object has refcount 3 and dynamic type 5, and the
pending-error slot holds an error of type 7 with value 9. -/
def rt0 : Rt :=
  { refcnt := fun _ => 3, errSlot := some ⟨7, 9⟩, typeOf := fun _ => 5, log := [] }

/-- C1, counterexample: the claim says every null input to
`cast_from_owned_ptr_or_panic` is escalated to an unrecoverable abort
that first consults the pending-error slot, before any dynamic
type-check outcome is resolved. In the runtime `rt0`, whose type check
accepts the null pointer for type 5, the call on null returns a normal
wrapper around null — no abort happens at all — and the pending-error
slot, still holding its error, was never consulted: the type-check
outcome was resolved first and decided the result. -/
theorem c1_counterexample :
    (pyptr.cast_from_owned_ptr_or_panic 5 0 rt0).1 = POutcome.ok ⟨0⟩ ∧
    (pyptr.cast_from_owned_ptr_or_panic 5 0 rt0).2.errSlot = some ⟨7, 9⟩ ∧
    (pyptr.cast_from_owned_ptr_or_panic 5 0 rt0).2.log = [FFICall.typeCheckC 0 5] := by
  refine ⟨rfl, rfl, rfl⟩

/-- C1, amended: for a null pointer input, `cast_from_owned_ptr_or_panic`
performs no null check; it resolves the dynamic type check on the null
pointer first, and only when that check fails does it escalate to an
unrecoverable abort that consults (fetches and clears) the pending-error
slot — as the log shows, the type-check call precedes the error fetch. -/
theorem c1_cast_or_panic_null_checks_type_first (T : Nat) (rt : Rt)
    (h : rt.typeOf 0 ≠ T) :
    (pyptr.cast_from_owned_ptr_or_panic T 0 rt).1
      = POutcome.panicked (PyErr.ofSlot rt.errSlot) ∧
    (pyptr.cast_from_owned_ptr_or_panic T 0 rt).2.errSlot = none ∧
    (pyptr.cast_from_owned_ptr_or_panic T 0 rt).2.log
      = rt.log ++ [FFICall.typeCheckC 0 T, FFICall.fetchErrC] := by
  refine ⟨?_, ?_, ?_⟩ <;>
    simp [pyptr.cast_from_owned_ptr_or_panic, panic_after_error,
      PyErr.fetch, Rt.typeCheck, h]

/-- C1, witness: the amended theorem instantiated at expected type 99 in
`rt0`, where the null pointer's dynamic type is 5. -/
theorem c1_witness :
    rt0.typeOf 0 ≠ 99 ∧
    ((pyptr.cast_from_owned_ptr_or_panic 99 0 rt0).1
        = POutcome.panicked (PyErr.ofSlot rt0.errSlot) ∧
     (pyptr.cast_from_owned_ptr_or_panic 99 0 rt0).2.errSlot = none ∧
     (pyptr.cast_from_owned_ptr_or_panic 99 0 rt0).2.log
        = rt0.log ++ [FFICall.typeCheckC 0 99, FFICall.fetchErrC]) :=
  ⟨by decide, c1_cast_or_panic_null_checks_type_first 99 rt0 (by decide)⟩

/-- C2: for every non-null pointer, `from_owned_ptr` performs no refcount
operation at construction (the state is returned untouched), and dropping
the wrapper performs exactly one decrement of that pointer's refcount,
leaving every other refcount unchanged, with a single `Py_DECREF` in the
foreign-call log. -/
theorem c2_from_owned_ptr_then_drop (p : Ptr) (rt : Rt) (h : p ≠ 0) :
    pyptr.from_owned_ptr p rt = (⟨p⟩, rt) ∧
    (pyptr.drop ⟨p⟩ rt).refcnt
      = (fun q => if q = p then rt.refcnt q - 1 else rt.refcnt q) ∧
    (pyptr.drop ⟨p⟩ rt).log = rt.log ++ [FFICall.decrefC p] :=
  ⟨rfl, rfl, rfl⟩

/-- C2, witness: pointer 7 in the runtime `rt0`. -/
theorem c2_witness :
    pyptr.from_owned_ptr 7 rt0 = (⟨7⟩, rt0) ∧
    (pyptr.drop ⟨7⟩ rt0).refcnt
      = (fun q => if q = 7 then rt0.refcnt q - 1 else rt0.refcnt q) ∧
    (pyptr.drop ⟨7⟩ rt0).log = rt0.log ++ [FFICall.decrefC 7] :=
  c2_from_owned_ptr_then_drop 7 rt0 (by decide)

/-- C3: for every non-null pointer, `from_borrowed_ptr` increments that
pointer's refcount by exactly one at construction, and dropping the
wrapper decrements it by one, so the whole refcount map is restored to
its pre-construction value; the log records exactly one incref followed
by one decref. -/
theorem c3_from_borrowed_ptr_then_drop (p : Ptr) (rt : Rt) (h : p ≠ 0) :
    (pyptr.from_borrowed_ptr p rt).1 = ⟨p⟩ ∧
    (pyptr.from_borrowed_ptr p rt).2.refcnt
      = (fun q => if q = p then rt.refcnt q + 1 else rt.refcnt q) ∧
    (pyptr.drop (pyptr.from_borrowed_ptr p rt).1
        (pyptr.from_borrowed_ptr p rt).2).refcnt = rt.refcnt ∧
    (pyptr.drop (pyptr.from_borrowed_ptr p rt).1
        (pyptr.from_borrowed_ptr p rt).2).log
      = rt.log ++ [FFICall.increfC p, FFICall.decrefC p] := by
  refine ⟨rfl, rfl, ?_, by simp [pyptr.from_borrowed_ptr, pyptr.drop,
    Rt.incref, Rt.decref]⟩
  funext q
  by_cases hq : q = p <;>
    simp [pyptr.from_borrowed_ptr, pyptr.drop, Rt.incref, Rt.decref, hq]

/-- C3, witness: pointer 4 in the runtime `rt0`. -/
theorem c3_witness :
    (pyptr.from_borrowed_ptr 4 rt0).1 = ⟨4⟩ ∧
    (pyptr.from_borrowed_ptr 4 rt0).2.refcnt
      = (fun q => if q = 4 then rt0.refcnt q + 1 else rt0.refcnt q) ∧
    (pyptr.drop (pyptr.from_borrowed_ptr 4 rt0).1
        (pyptr.from_borrowed_ptr 4 rt0).2).refcnt = rt0.refcnt ∧
    (pyptr.drop (pyptr.from_borrowed_ptr 4 rt0).1
        (pyptr.from_borrowed_ptr 4 rt0).2).log
      = rt0.log ++ [FFICall.increfC 4, FFICall.decrefC 4] :=
  c3_from_borrowed_ptr_then_drop 4 rt0 (by decide)

/-- C4: for a null input, both `-or-err` constructors
(`from_owned_ptr_or_err` and `cast_from_owned_ptr_or_err`, the latter
before running any type check) return a foreign error value built from
the pending-error slot, and the slot is empty immediately afterwards. -/
theorem c4_or_err_null_fetches_and_clears (T : Nat) (rt : Rt) :
    (pyptr.from_owned_ptr_or_err 0 rt).1
      = Except.error (PyErr.ofSlot rt.errSlot) ∧
    (pyptr.from_owned_ptr_or_err 0 rt).2.errSlot = none ∧
    (pyptr.cast_from_owned_ptr_or_err T 0 rt).1
      = Except.error (PyErr.ofSlot rt.errSlot) ∧
    (pyptr.cast_from_owned_ptr_or_err T 0 rt).2.errSlot = none :=
  ⟨rfl, rfl, rfl, rfl⟩

/-- C5: for a non-null pointer whose dynamic type does not match the
expected type, `cast_from_owned_ptr` returns the downcast failure value
`PyDowncastError(py, None)`, the pending-error slot is exactly what it
was before the call (so still empty if it was empty), and the log shows
the only foreign call made was the type check — the slot was neither
read nor cleared nor written. -/
theorem c5_cast_from_owned_ptr_mismatch (T : Nat) (p : Ptr) (rt : Rt)
    (hp : p ≠ 0) (hT : rt.typeOf p ≠ T) :
    (pyptr.cast_from_owned_ptr T p rt).1 = Except.error ⟨none⟩ ∧
    (pyptr.cast_from_owned_ptr T p rt).2.errSlot = rt.errSlot ∧
    (pyptr.cast_from_owned_ptr T p rt).2.log
      = rt.log ++ [FFICall.typeCheckC p T] := by
  refine ⟨?_, ?_, ?_⟩ <;> simp [pyptr.cast_from_owned_ptr, Rt.typeCheck, hT]

/-- C5, witness: pointer 7 (dynamic type 5 in `rt0`) cast to expected
type 99. -/
theorem c5_witness :
    (7 : Ptr) ≠ 0 ∧ rt0.typeOf 7 ≠ 99 ∧
    ((pyptr.cast_from_owned_ptr 99 7 rt0).1 = Except.error ⟨none⟩ ∧
     (pyptr.cast_from_owned_ptr 99 7 rt0).2.errSlot = rt0.errSlot ∧
     (pyptr.cast_from_owned_ptr 99 7 rt0).2.log
       = rt0.log ++ [FFICall.typeCheckC 7 99]) :=
  ⟨by decide, by decide, c5_cast_from_owned_ptr_mismatch 99 7 rt0
    (by decide) (by decide)⟩

/-- C6: for every wrapped pointer, `into_ptr` returns exactly the wrapped
pointer and leaves the foreign state (refcounts and all) untouched, and
re-wrapping the returned pointer via `from_owned_ptr` also leaves it
untouched: the refcount map after the whole round trip is the one before
it. -/
theorem c6_into_ptr_roundtrip (x : pyptr) (rt : Rt) :
    pyptr.into_ptr x rt = (x.ptr, rt) ∧
    pyptr.from_owned_ptr (pyptr.into_ptr x rt).1 (pyptr.into_ptr x rt).2
      = (⟨x.ptr⟩, rt) ∧
    (pyptr.from_owned_ptr (pyptr.into_ptr x rt).1
        (pyptr.into_ptr x rt).2).2.refcnt = rt.refcnt :=
  ⟨rfl, rfl, rfl⟩

/-- C7: for a null input, both `-or-none` constructors
(`from_owned_ptr_or_opt` and `from_borrowed_ptr_or_opt`) return `None`
and the foreign state is returned exactly as it was — in particular no
incref or decref is performed and the call log is unchanged. -/
theorem c7_or_opt_null_is_none_no_refcount (rt : Rt) :
    pyptr.from_owned_ptr_or_opt 0 rt = (none, rt) ∧
    pyptr.from_borrowed_ptr_or_opt 0 rt = (none, rt) :=
  ⟨rfl, rfl⟩

/-- C8: for every input buffer and every decode failure with valid-up-to
offset `k`, the convenience constructor `new_utf8` produces exactly the
range `k .. k + 1`, the fixed reason `"invalid utf-8"`, and encoding
`"utf-8"`, with the buffer passed through whole — a total function of the
inputs, so in particular defined at the boundary `k` equal to the buffer
length minus one. -/
theorem c8_new_utf8_range_and_reason (input : List Nat) (err : Utf8Error) :
    (UnicodeDecodeError.new_utf8 input err).start = err.valid_up_to ∧
    (UnicodeDecodeError.new_utf8 input err).stop = err.valid_up_to + 1 ∧
    (UnicodeDecodeError.new_utf8 input err).reason = "invalid utf-8" ∧
    (UnicodeDecodeError.new_utf8 input err).encoding = "utf-8" ∧
    (UnicodeDecodeError.new_utf8 input err).input = input ∧
    (UnicodeDecodeError.new_utf8 input err).length = input.length :=
  ⟨rfl, rfl, rfl, rfl, rfl, rfl⟩

/-- C9: for every argument tuple, the iteration-stop signal's entire
effect is setting the pending-error slot to the iteration-exhausted
condition (`PyExc_StopIteration`) with the tuple attached: the result is
the input state with only the slot updated and the single `set_error`
call logged; refcounts and types are untouched, and the operation's type
`PyTuple → Rt → Rt` returns no owned reference and no value. -/
theorem c9_stop_iteration_sets_slot (args : PyTuple) (rt : Rt) :
    StopIteration.stop_iteration args rt
      = { rt with errSlot := some ⟨PyExc_StopIteration, args.ptr⟩,
                  log := rt.log
                    ++ [FFICall.setErrC PyExc_StopIteration args.ptr] } :=
  rfl

/-- C10: on a null pointer, the plain typed casts `cast_from_owned_ptr`
and `cast_from_borrowed_ptr` perform no null guard: each invokes the
foreign dynamic type check on the null pointer (the type-check call on
pointer 0 appears in the log), and its result is decided solely by that
check — wrapping null on success, downcast failure on mismatch — never a
fetched error or `None`. `cast_from_owned_ptr_or_panic` likewise runs
the type check on null first. Only `cast_from_owned_ptr_or_err` guards:
on null its sole foreign call is the error fetch, with no type check. -/
theorem c10_plain_casts_no_null_guard (T : Nat) (rt : Rt) :
    (pyptr.cast_from_owned_ptr T 0 rt).2.log
      = rt.log ++ [FFICall.typeCheckC 0 T] ∧
    (pyptr.cast_from_owned_ptr T 0 rt).1
      = (if rt.typeOf 0 = T then Except.ok ⟨0⟩ else Except.error ⟨none⟩) ∧
    (pyptr.cast_from_borrowed_ptr T 0 rt).1
      = (if rt.typeOf 0 = T then Except.ok ⟨0⟩ else Except.error ⟨none⟩) ∧
    (pyptr.cast_from_borrowed_ptr T 0 rt).2.log
      = (if rt.typeOf 0 = T
         then rt.log ++ [FFICall.typeCheckC 0 T, FFICall.increfC 0]
         else rt.log ++ [FFICall.typeCheckC 0 T]) ∧
    (pyptr.cast_from_owned_ptr_or_panic T 0 rt).2.log
      = (if rt.typeOf 0 = T
         then rt.log ++ [FFICall.typeCheckC 0 T]
         else rt.log ++ [FFICall.typeCheckC 0 T, FFICall.fetchErrC]) ∧
    (pyptr.cast_from_owned_ptr_or_err T 0 rt).2.log
      = rt.log ++ [FFICall.fetchErrC] := by
  by_cases h : rt.typeOf 0 = T <;>
    refine ⟨?_, ?_, ?_, ?_, ?_, ?_⟩ <;>
      simp [pyptr.cast_from_owned_ptr, pyptr.cast_from_borrowed_ptr,
        pyptr.cast_from_owned_ptr_or_panic, pyptr.cast_from_owned_ptr_or_err,
        pyptr.from_owned_ptr, pyptr.from_borrowed_ptr, Rt.typeCheck,
        Rt.incref, panic_after_error, PyErr.fetch, h]

end PyO3
